import Mathlib

/-!
Shallow embedding of the DetectMateService component runtime, written for a
verification pass over the repository's specification.

Conventions:
* Python dicts / YAML trees are modelled by `Yaml` (association lists keep key
  order, as PyYAML and pydantic do).
* Machine bytes are `Nat` values; byte strings are `List Nat`.
* Fallible Python code (raising exceptions) is modelled with `Except`.
* File-system and network conditions that the code branches on are passed in
  explicitly (`FileState`, `NetEnv`), so every operation is a pure function.

Sources embedded:
* `src/service/features/config_manager.py` (`ServiceConfig`, `ConfigManager`)
* `src/service/core.py` (`Service.process`, `Service.start`, metric counters)
* `src/corecomponent/features/engine.py` (the PAIR0 `Engine` present in src)
* `src/service/settings.py` (`ServiceSettings._ensure_component_id`)
* `src/service/features/engine_socket.py` (`NngPairSocketFactory.create`)
* `service/features/engine.py` is imported by `service/core.py` and exercised
  by the repository's tests but its source file is absent from the tree; the
  parts of it that claims depend on are modelled from the specification and
  are marked `Modelled from the spec:` below.
-/

/-- A YAML / JSON-like data tree as handled by `yaml.safe_load` and pydantic.
Dictionaries are association lists, preserving key order. -/
inductive Yaml where
  | nul : Yaml
  | bool (b : Bool) : Yaml
  | nat (n : Nat) : Yaml
  | str (s : String) : Yaml
  | arr (xs : List Yaml) : Yaml
  | dict (kvs : List (String × Yaml)) : Yaml

/-- Python truthiness of a decoded YAML value (`if data:` in config_manager). -/
def Yaml.truthy : Yaml → Bool
  | .nul => false
  | .bool b => b
  | .nat n => n != 0
  | .str s => !s.isEmpty
  | .arr xs => !xs.isEmpty
  | .dict kvs => !kvs.isEmpty

/-- First binding of a key in an association list (dict lookup). -/
def yamlLookup (kvs : List (String × Yaml)) (k : String) : Option Yaml :=
  match kvs.find? (fun p => p.1 == k) with
  | some p => some p.2
  | none => none

/-- The fixed pydantic model from `config_manager.py`:
`class ServiceConfig(BaseModel): detectors / parsers : Optional[Dict[str, Dict[str, Any]]]`.
Fields hold ordered maps from names to inner dictionaries. -/
structure ServiceConfigM where
  detectors : Option (List (String × List (String × Yaml)))
  parsers : Option (List (String × List (String × Yaml)))

/-- Pydantic validation of a value against `Dict[str, Dict[str, Any]]`:
every entry of the mapping must itself be a mapping. -/
def parseDictOfDicts : Yaml → Option (List (String × List (String × Yaml)))
  | .dict kvs =>
    kvs.foldr
      (fun p acc =>
        match acc, p.2 with
        | some rest, .dict inner => some ((p.1, inner) :: rest)
        | _, _ => none)
      (some [])
  | _ => none

/-- Pydantic validation of one optional `Dict[str, Dict[str, Any]]` field of
`ServiceConfig`: a missing key or explicit null yields `None` (the default);
anything else must be a dict of dicts. -/
def validateOptField (kvs : List (String × Yaml)) (name : String) :
    Except String (Option (List (String × List (String × Yaml)))) :=
  match yamlLookup kvs name with
  | none => .ok none
  | some .nul => .ok none
  | some y =>
    match parseDictOfDicts y with
    | some d => .ok (some d)
    | none => .error (name ++ ": value is not a mapping of mappings")

/-- `ServiceConfig.model_validate(data)`: the input must be a mapping; the two
declared fields are validated and every other top-level key is ignored
(pydantic's default `extra` behaviour). -/
def serviceConfigValidate (y : Yaml) : Except String ServiceConfigM :=
  match y with
  | .dict kvs =>
    match validateOptField kvs "detectors" with
    | .error e => .error e
    | .ok d =>
      match validateOptField kvs "parsers" with
      | .error e => .error e
      | .ok p => .ok ⟨d, p⟩
  | _ => .error "input is not a mapping"

/-- Dump one optional field back to a tree (`model_dump` emits `None` for an
unset optional field). -/
def optFieldDump : Option (List (String × List (String × Yaml))) → Yaml
  | none => .nul
  | some d => .dict (d.map (fun p => (p.1, .dict p.2)))

/-- `ServiceConfig(...).model_dump()`: both declared fields, in declaration
order. -/
def scModelDump (m : ServiceConfigM) : Yaml :=
  .dict [("detectors", optFieldDump m.detectors), ("parsers", optFieldDump m.parsers)]

/-- A pydantic `CoreConfig` subclass as supplied by a hosted processor: the
root schema handed to `ConfigManager.__init__`. We record what the claims
need: which top-level fields are required, which are declared, whether extra
keys are forbidden, the dump of the default instance `schema()`, and the
optional minimal-form dump when the class provides `to_dict()`. -/
structure CoreSchema where
  required : List String
  known : List String
  forbidExtra : Bool
  defaultDump : Yaml
  toDictDump : Option Yaml

/-- Whether a tree validates against the supplied root schema (pydantic
semantics: a mapping, all required fields present, and no unknown keys when
extras are forbidden). -/
def CoreSchema.validates (s : CoreSchema) (y : Yaml) : Bool :=
  match y with
  | .dict kvs =>
    s.required.all (fun r => (yamlLookup kvs r).isSome) &&
      (!s.forbidExtra || kvs.all (fun p => s.known.contains p.1))
  | _ => false

/-- The value held by `ConfigManager._configs` when it is not `None`:
an instance of the supplied schema (created for an absent file), a validated
`ServiceConfig` instance, or a raw decoded dict (no schema supplied). -/
inductive ConfigValue where
  | schemaInstance (dump : Yaml) (toDict : Option Yaml) : ConfigValue
  | svcConfig (m : ServiceConfigM) : ConfigValue
  | raw (y : Yaml) : ConfigValue

/-- The tree a stored value denotes (its serialized full form). -/
def ConfigValue.dump : ConfigValue → Yaml
  | .schemaInstance d _ => d
  | .svcConfig m => scModelDump m
  | .raw y => y

/-- In-memory state of a `ConfigManager`. -/
structure ConfigManagerState where
  schema : Option CoreSchema
  configs : Option ConfigValue

/-- What the backing file looks like when an operation runs. -/
inductive FileState where
  | absent : FileState
  | badYaml : FileState
  | content (y : Yaml) : FileState

/-- `ConfigManager.load`. Returns the new state, paired with `true` when the
absent-file branch persisted a fresh default (`self.save()`); YAML errors and
validation errors raise without mutating `_configs`. -/
def ConfigManager.load (st : ConfigManagerState) (file : FileState) :
    Except String (ConfigManagerState × Bool) :=
  match file with
  | .absent =>
    match st.schema with
    | some sch =>
      .ok ({ st with configs := some (.schemaInstance sch.defaultDump sch.toDictDump) }, true)
    | none => .ok (st, false)
  | .badYaml => .error "yaml decode error"
  | .content y =>
    if st.schema.isSome && y.truthy then
      match serviceConfigValidate y with
      | .ok m => .ok ({ st with configs := some (.svcConfig m) }, false)
      | .error e => .error e
    else if y.truthy then
      .ok ({ st with configs := some (.raw y) }, false)
    else
      .ok (st, false)

/-- `ConfigManager.update(new_configs)`: with a schema, validate the dict
against `ServiceConfig` and install the result; with no schema install the
raw dict. A validation error raises and leaves the state unchanged. -/
def ConfigManager.update (st : ConfigManagerState) (newConfigs : List (String × Yaml)) :
    Except String ConfigManagerState :=
  match st.schema with
  | some _ =>
    match serviceConfigValidate (.dict newConfigs) with
    | .ok m => .ok { st with configs := some (.svcConfig m) }
    | .error e => .error e
  | none => .ok { st with configs := some (.raw (.dict newConfigs)) }

/-- `ConfigManager.get()`. -/
def ConfigManager.get (st : ConfigManagerState) : Option ConfigValue :=
  st.configs

/-- One write to the backing file as performed by `ConfigManager.save`. -/
structure SaveAction where
  data : Yaml
  mkdirParents : Bool
  defaultFlowStyle : Bool
  sortKeys : Bool

/-- `ConfigManager.save(config_dict)`: serialize the provided dict, else the
current value (preferring `to_dict()` over `model_dump()` on models), to the
backing path; the parent directory is created (`mkdir(parents=True,
exist_ok=True)`) and `yaml.dump` runs with `default_flow_style=False,
sort_keys=False`. With no argument and no current value, nothing is written. -/
def ConfigManager.save (st : ConfigManagerState) (configDict : Option Yaml) :
    Option SaveAction :=
  match configDict with
  | some d => some ⟨d, true, false, false⟩
  | none =>
    match st.configs with
    | none => none
    | some (.schemaInstance dump toDict) => some ⟨toDict.getD dump, true, false, false⟩
    | some (.svcConfig m) => some ⟨scModelDump m, true, false, false⟩
    | some (.raw y) => some ⟨y, true, false, false⟩

/-- An admin-visible operation on a `ConfigManager` (construction-time load,
reload, update, save). -/
inductive ConfigOp where
  | load (file : FileState) : ConfigOp
  | update (d : List (String × Yaml)) : ConfigOp
  | save (arg : Option Yaml) : ConfigOp

/-- Apply one operation; a raised error leaves the in-memory state unchanged. -/
def applyConfigOp (st : ConfigManagerState) (op : ConfigOp) : ConfigManagerState :=
  match op with
  | .load f =>
    match ConfigManager.load st f with
    | .ok (st', _) => st'
    | .error _ => st
  | .update d =>
    match ConfigManager.update st d with
    | .ok st' => st'
    | .error _ => st
  | .save _ => st

/-- Run a sequence of operations from a freshly constructed manager (the
constructor's own `load()` is the first operation of the sequence). -/
def runConfigOps (schema : Option CoreSchema) (ops : List ConfigOp) : ConfigManagerState :=
  ops.foldl applyConfigOp { schema := schema, configs := none }

/-! ### `Service.process` and the metric counters (`src/service/core.py`) -/

/-- One observable effect of a `Service.process` invocation, in program order. -/
inductive ProcEvent where
  | counterInc (amount : Nat) : ProcEvent
  | processorCall (payload : List Nat) : ProcEvent

/-- Result of one `Service.process` call: the ordered effects and the return
value. -/
structure ProcResult where
  events : List ProcEvent
  output : Option (List Nat)

/-- `Service.process(raw_message)`: `data_processed_bytes_total` is bumped by
`len(raw_message)` when the payload is non-empty (`if raw_message:`), then the
timing region runs the library component's `process` when one is loaded, else
the passthrough returns the input unchanged. -/
def serviceProcess (libraryComponent : Option (List Nat → Option (List Nat)))
    (raw : List Nat) : ProcResult :=
  let incs : List ProcEvent := if raw.isEmpty then [] else [.counterInc raw.length]
  match libraryComponent with
  | some p => ⟨incs ++ [.processorCall raw], p raw⟩
  | none => ⟨incs, some raw⟩

/-- Total increment applied to `data_processed_bytes_total` by a list of
effects. -/
def counterDelta (evs : List ProcEvent) : Nat :=
  evs.foldl
    (fun acc ev =>
      match ev with
      | .counterInc n => acc + n
      | .processorCall _ => acc) 0

/-! ### `Service.start` and `engine_starts_total` (`src/service/core.py`) -/

/-- The slice of `Service` state that `Service.start` reads and writes:
the `_running` flag and the `engine_starts_total` counter value for this
component's labels. -/
structure SvcState where
  running : Bool
  startsTotal : Nat

/-- Outcome of the inner `Engine.start(self)` call. Modelled from the spec:
`service/features/engine.py` is absent from the source tree; per §4.5 the
call creates the input socket and an input-socket bind failure is fatal for
the engine, so the call either succeeds or raises. -/
inductive EngStartOutcome where
  | ok : EngStartOutcome
  | failed : EngStartOutcome

/-- `Service.start`: return early when `_running` is already true; otherwise
increment `engine_starts_total` and only then call `Engine.start`, whose
failure propagates as an exception (the counter stays incremented). -/
def serviceStart (st : SvcState) (eng : EngStartOutcome) :
    SvcState × Except String String :=
  if st.running then
    (st, .ok "Ignored: Engine is already running")
  else
    let st' : SvcState := { st with startsTotal := st.startsTotal + 1 }
    match eng with
    | .ok => ({ st' with running := true }, .ok "engine started")
    | .failed => (st', .error "engine start failed")

/-! ### The PAIR0 `Engine` of `src/corecomponent/features/engine.py` -/

/-- A `threading.Thread`: Python threads remember whether `start()` was ever
called on them and refuse a second call (`RuntimeError: threads can only be
started once`), even after the thread has finished and been joined. -/
structure PyThread where
  started : Bool
  alive : Bool

/-- `Thread.start()`. -/
def PyThread.start (t : PyThread) : Except String PyThread :=
  if t.started then .error "threads can only be started once"
  else .ok { started := true, alive := true }

/-- State of the corecomponent `Engine`: the `_running` flag, the `_paused`
event, and the single `_thread` created in `__init__`. -/
structure CoreEngine where
  running : Bool
  paused : Bool
  thread : PyThread

/-- The engine as `__init__` leaves it just before the autostart check: flags
clear and a fresh, not-yet-started worker thread. -/
def coreEngineInit : CoreEngine :=
  { running := false, paused := false, thread := { started := false, alive := false } }

/-- `Engine.start`: when not running, set `_running = True` and then call
`self._thread.start()`; the `RuntimeError` of a second `Thread.start` call
propagates after `_running` was already flipped. -/
def coreEngineStart (e : CoreEngine) : CoreEngine × Except String String :=
  if e.running then
    (e, .ok "engine already running")
  else
    let e' : CoreEngine := { e with running := true }
    match e'.thread.start with
    | .ok t => ({ e' with thread := t }, .ok "engine started")
    | .error m => (e', .error m)

/-- `Engine.stop`: when running, clear `_running` and join the worker with a
1-second grace (the loop exits once `_running` is false, so the worker is no
longer alive); the `Thread` object itself is not replaced. -/
def coreEngineStop (e : CoreEngine) : CoreEngine × String :=
  if e.running then
    ({ e with running := false, thread := { e.thread with alive := false } }, "engine stopped")
  else
    (e, "engine not running")

/-! ### The multi-output engine of `service/features/engine.py`

The class is imported by `service/core.py` and exercised by the repository's
tests (`tests/test_engine_loop.py`, `tests/test_engine_multi_output.py`), but
its source file is absent from the tree; the loop and shutdown behaviour the
claims depend on is modelled from the specification (§4.5). -/

/-- What one iteration of the engine loop observes on the input socket. -/
inductive RecvEvent where
  | timeout : RecvEvent
  | msg (payload : List Nat) : RecvEvent

/-- Observable effects of one loop iteration. -/
inductive LoopEvent where
  | processorInvoked (payload : List Nat) : LoopEvent
  | sent (slot : Nat) (payload : List Nat) : LoopEvent
  | slotMarkedBroken (slot : Nat) : LoopEvent

/-- One entry of the output socket registry: whether a socket was opened for
the slot and whether the slot has degraded to broken. -/
structure OutSlot where
  connected : Bool
  broken : Bool

/-- Engine-loop state: the lifecycle flags and the ordered output registry. -/
structure SpecEngine where
  running : Bool
  paused : Bool
  outputs : List OutSlot

/-- Broadcast of a non-empty result: iterate the registry in order, send on
each working slot; a send failure marks that slot broken and the remaining
slots continue. Modelled from the spec: §4.5 main loop, fan-out step. -/
def broadcastResult (outputs : List OutSlot) (result : List Nat) (sendOk : Nat → Bool) :
    List OutSlot × List LoopEvent :=
  let step := fun (acc : List OutSlot × List LoopEvent × Nat) (slot : OutSlot) =>
    let i := acc.2.2
    if slot.connected && !slot.broken then
      if sendOk i then
        (acc.1 ++ [slot], acc.2.1 ++ [.sent i result], i + 1)
      else
        (acc.1 ++ [{ slot with broken := true }], acc.2.1 ++ [.slotMarkedBroken i], i + 1)
    else
      (acc.1 ++ [slot], acc.2.1, i + 1)
  let r := outputs.foldl step ([], [], 0)
  (r.1, r.2.1)

/-- One iteration of the engine main loop. Modelled from the spec: §4.5 —
while `Running`: yield when paused; a receive timeout is not an error; an
empty received payload is dropped with no processor invocation and no
broadcast; the processor runs with errors caught; a null or empty result
skips the broadcast; otherwise the result is fanned out in registry order.
The processor outcome is `Except` (it may raise) of an optional payload. -/
def engineLoopStep (e : SpecEngine) (recv : RecvEvent)
    (proc : List Nat → Except String (Option (List Nat))) (sendOk : Nat → Bool) :
    SpecEngine × List LoopEvent :=
  if !e.running then (e, [])
  else if e.paused then (e, [])
  else
    match recv with
    | .timeout => (e, [])
    | .msg payload =>
      if payload.isEmpty then (e, [])
      else
        match proc payload with
        | .error _ => (e, [.processorInvoked payload])
        | .ok none => (e, [.processorInvoked payload])
        | .ok (some result) =>
          if result.isEmpty then (e, [.processorInvoked payload])
          else
            let r := broadcastResult e.outputs result sendOk
            ({ e with outputs := r.1 }, .processorInvoked payload :: r.2)

/-- A transport socket as the shutdown claims see it: only whether it has been
closed. -/
structure SpecSocket where
  closed : Bool

/-- `send` on a socket: a closed socket raises a transport error. -/
def SpecSocket.send (s : SpecSocket) (_data : List Nat) : Except String Unit :=
  if s.closed then .error "transport error: socket closed" else .ok ()

/-- Socket-owning engine state for the shutdown claims. -/
structure SpecEngineIO where
  running : Bool
  inputSock : SpecSocket
  outSocks : List SpecSocket

/-- Socket-close effects of `stop`, in program order. -/
inductive StopEvent where
  | closedOutput (i : Nat) : StopEvent
  | closedInput : StopEvent

/-- `Engine.stop`. Modelled from the spec: §4.5 shutdown — signal the worker,
wait up to the grace period, then close every output socket and then the
input socket before returning. -/
def specEngineStop (e : SpecEngineIO) : SpecEngineIO × List StopEvent :=
  ({ running := false,
     inputSock := { closed := true },
     outSocks := e.outSocks.map (fun _ => { closed := true }) },
   (List.range e.outSocks.length).map .closedOutput ++ [.closedInput])

/-! ### UUIDv5 (`uuid.uuid5` over `NAMESPACE_URL`) and SHA-1

`ServiceSettings._ensure_component_id` derives component ids with
`uuid5(NAMESPACE_URL, name)`; SHA-1 is implemented here over byte lists so
that concrete derivations evaluate inside Lean. -/

/-- Truncate to a 32-bit word. -/
def w32 (n : Nat) : Nat := n % 4294967296

/-- Left-rotate a 32-bit word by `b` bits. -/
def rotl (b n : Nat) : Nat := (n * 2 ^ b) % 4294967296 + n / 2 ^ (32 - b)

/-- The SHA-1 round function for round `t`. -/
def sha1F (t b c d : Nat) : Nat :=
  if t < 20 then (b &&& c) ||| ((4294967295 - b) &&& d)
  else if t < 40 then b ^^^ c ^^^ d
  else if t < 60 then (b &&& c) ||| (b &&& d) ||| (c &&& d)
  else b ^^^ c ^^^ d

/-- The SHA-1 round constant for round `t`. -/
def sha1K (t : Nat) : Nat :=
  if t < 20 then 0x5A827999
  else if t < 40 then 0x6ED9EBA1
  else if t < 60 then 0x8F1BBCDC
  else 0xCA62C1D6

/-- The five SHA-1 chaining words. -/
structure Sha1H where
  h0 : Nat
  h1 : Nat
  h2 : Nat
  h3 : Nat
  h4 : Nat

/-- SHA-1 initialization vector. -/
def sha1IV : Sha1H := ⟨0x67452301, 0xEFCDAB89, 0x98BADCFE, 0x10325476, 0xC3D2E1F0⟩

/-- Big-endian word from bytes. -/
def fromBytesBE (bs : List Nat) : Nat := bs.foldl (fun acc b => acc * 256 + b % 256) 0

/-- The sixteen big-endian message words of one 64-byte block. -/
def blockWords (block : List Nat) : List Nat :=
  (List.range 16).map (fun i => fromBytesBE ((block.drop (4 * i)).take 4))

/-- Extend the message words `n` times by the SHA-1 word recurrence. -/
def extendWords (ws : List Nat) : Nat → List Nat
  | 0 => ws
  | n + 1 =>
    let ws' := extendWords ws n
    let m := ws'.length
    ws' ++ [rotl 1 ((ws'.getD (m - 3) 0) ^^^ (ws'.getD (m - 8) 0) ^^^
      (ws'.getD (m - 14) 0) ^^^ (ws'.getD (m - 16) 0))]

/-- One SHA-1 compression round. -/
def sha1Round (ws : List Nat) (st : Sha1H) (t : Nat) : Sha1H :=
  ⟨w32 (rotl 5 st.h0 + sha1F t st.h1 st.h2 st.h3 + st.h4 + sha1K t + ws.getD t 0),
   st.h0, rotl 30 st.h1, st.h2, st.h3⟩

/-- Compress one 64-byte block into the chaining state. -/
def sha1Block (h : Sha1H) (block : List Nat) : Sha1H :=
  let ws := extendWords (blockWords block) 64
  let f := (List.range 80).foldl (sha1Round ws) h
  ⟨w32 (h.h0 + f.h0), w32 (h.h1 + f.h1), w32 (h.h2 + f.h2),
   w32 (h.h3 + f.h3), w32 (h.h4 + f.h4)⟩

/-- Fold the compression over a padded message; the fuel argument is any
bound on the number of 64-byte blocks, so the recursion is structural and
evaluates by kernel reduction. -/
def sha1Blocks : Nat → Sha1H → List Nat → Sha1H
  | 0, h, _ => h
  | _, h, [] => h
  | fuel + 1, h, b :: rest =>
    sha1Blocks fuel (sha1Block h ((b :: rest).take 64)) ((b :: rest).drop 64)

/-- The 64-bit big-endian message-length trailer. -/
def lenBytes64 (n : Nat) : List Nat :=
  (List.range 8).map (fun i => n / 2 ^ (8 * (7 - i)) % 256)

/-- SHA-1 padding: `0x80`, zeros to 56 mod 64, then the bit length. -/
def sha1Pad (msg : List Nat) : List Nat :=
  msg ++ [128] ++ List.replicate ((119 - msg.length % 64) % 64) 0 ++ lenBytes64 (8 * msg.length)

/-- Big-endian bytes of one 32-bit word. -/
def wordBytes (n : Nat) : List Nat :=
  [n / 16777216 % 256, n / 65536 % 256, n / 256 % 256, n % 256]

/-- SHA-1 digest (20 bytes) of a byte list. -/
def sha1 (msg : List Nat) : List Nat :=
  let padded := sha1Pad msg
  let h := sha1Blocks padded.length sha1IV padded
  wordBytes h.h0 ++ wordBytes h.h1 ++ wordBytes h.h2 ++ wordBytes h.h3 ++ wordBytes h.h4

/-- The bytes of `uuid.NAMESPACE_URL`. -/
def namespaceURLBytes : List Nat :=
  [0x6b, 0xa7, 0xb8, 0x11, 0x9d, 0xad, 0x11, 0xd1,
   0x80, 0xb4, 0x00, 0xc0, 0x4f, 0xd4, 0x30, 0xc8]

/-- UTF-8 bytes of an ASCII string (all names derived here are ASCII). -/
def asciiBytes (s : String) : List Nat := s.data.map (fun c => c.toNat)

/-- Stamp the RFC 4122 version-5 and variant bits onto a 16-byte digest. -/
def setVersionVariant (d : List Nat) : List Nat :=
  (d.set 6 (d.getD 6 0 % 16 + 80)).set 8 (d.getD 8 0 % 64 + 128)

/-- A lowercase hex digit. -/
def hexDigitChar (n : Nat) : Char :=
  if n < 10 then Char.ofNat (48 + n) else Char.ofNat (87 + n)

/-- Lowercase hex string of a byte list (Python `bytes.hex()` / `UUID.hex`). -/
def bytesToHex (bs : List Nat) : String :=
  String.mk (bs.foldr (fun b acc => hexDigitChar (b / 16) :: hexDigitChar (b % 16) :: acc) [])

/-- `uuid5(NAMESPACE_URL, name).hex` as stored by `_ensure_component_id`. -/
def uuid5hex (name : String) : String :=
  bytesToHex (setVersionVariant ((sha1 (namespaceURLBytes ++ asciiBytes name)).take 16))

/-! ### `ServiceSettings` (`src/service/settings.py`) -/

/-- The fields of `ServiceSettings` that id derivation and address validation
read. In the source the address fields are plain optional strings. -/
structure ServiceSettingsRec where
  component_name : Option String
  component_id : Option String
  component_type : String
  manager_addr : Option String
  engine_addr : Option String

/-- Python truthiness of an optional string field. -/
def optStrTruthy : Option String → Bool
  | none => false
  | some s => !s.isEmpty

/-- Python `x or ''` on an optional string. -/
def orEmpty (o : Option String) : String := o.getD ""

/-- `ServiceSettings._ensure_component_id` (a pydantic `model_validator`):
keep an explicitly provided id; else derive a UUIDv5 from the component name;
else derive it from `component_type`, `manager_addr` and `engine_addr`. -/
def ensureComponentId (s : ServiceSettingsRec) : ServiceSettingsRec :=
  if optStrTruthy s.component_id then s
  else if optStrTruthy s.component_name then
    let name := "detectmate/" ++ s.component_type ++ "/" ++ orEmpty s.component_name
    { s with component_id := some (uuid5hex name) }
  else
    let base := s.component_type ++ "|" ++ orEmpty s.manager_addr ++ "|" ++ orEmpty s.engine_addr
    { s with component_id := some (uuid5hex ("detectmate/" ++ base)) }

/-- Validation of a `ServiceSettings` instance: the declared fields are plain
strings, booleans and paths, and the only model validator is
`_ensure_component_id`, so validation never inspects URI schemes and never
fails on address contents. -/
def serviceSettingsValidate (s : ServiceSettingsRec) : Except String ServiceSettingsRec :=
  .ok (ensureComponentId s)

/-- The id-derivation rule exactly as the claim states it (the fallback branch
hashes `engine_addr` and the joined output addresses). Written from the
claim's words, to be compared with `ensureComponentId`. -/
def claimIdRule (s : ServiceSettingsRec) (outAddrsJoined : String) : Option String :=
  if optStrTruthy s.component_id then s.component_id
  else if optStrTruthy s.component_name then
    some (uuid5hex ("detectmate/" ++ s.component_type ++ "/" ++ orEmpty s.component_name))
  else
    some (uuid5hex ("detectmate/" ++ s.component_type ++ "|" ++
      orEmpty s.engine_addr ++ "|" ++ outAddrsJoined))

/-- The id-derivation rule as amended: the fallback branch hashes
`manager_addr` and `engine_addr` (empty string for an unset address). Written
from the amended claim's words, to be compared with `ensureComponentId`. -/
def amendedIdRule (s : ServiceSettingsRec) : Option String :=
  if optStrTruthy s.component_id then s.component_id
  else if optStrTruthy s.component_name then
    some (uuid5hex ("detectmate/" ++ s.component_type ++ "/" ++ orEmpty s.component_name))
  else
    some (uuid5hex ("detectmate/" ++ s.component_type ++ "|" ++
      orEmpty s.manager_addr ++ "|" ++ orEmpty s.engine_addr))

/-! ### `NngPairSocketFactory.create` (`src/service/features/engine_socket.py`) -/

/-- The transport-level conditions `create` can run into. -/
structure NetEnv where
  ipcUnlinkFails : Bool
  tcpPortInUse : Bool
  listenFails : Bool

/-- How `create` fails, by kind. -/
inductive FactoryError where
  | osUnlinkFailed : FactoryError
  | valueErrorMissingPort : FactoryError
  | osAddressInUse : FactoryError
  | nngBindFailed : FactoryError
  | nngNotSupported : FactoryError

/-- Characters before the first occurrence of the separator `://`, if the
separator occurs; the accumulator carries the scanned prefix reversed. -/
def schemeSplitAux (acc : List Char) : List Char → Option (List Char)
  | ':' :: '/' :: '/' :: _ => some acc.reverse
  | c :: rest => schemeSplitAux (c :: acc) rest
  | [] => none

/-- Characters after the first occurrence of the separator `://`. -/
def afterSchemeAux : List Char → Option (List Char)
  | ':' :: '/' :: '/' :: rest => some rest
  | _ :: rest => afterSchemeAux rest
  | [] => none

/-- `urlparse(addr).scheme` for the addresses used here: the part before
`://`, empty when there is no separator. -/
def uriScheme (addr : String) : String :=
  match schemeSplitAux [] addr.data with
  | some cs => String.mk cs
  | none => ""

/-- Decimal digits to a number, when the list is non-empty and all digits. -/
def digitsToNat : List Char → Option Nat
  | [] => none
  | cs =>
    if cs.all Char.isDigit then
      some (cs.foldl (fun a c => a * 10 + (c.toNat - 48)) 0)
    else none

/-- `urlparse(addr).port` for `host:port` authorities: the digits after the
last colon of the network location. -/
def tcpPortOf (addr : String) : Option Nat :=
  match afterSchemeAux addr.data with
  | none => none
  | some rest =>
    let netloc := rest.takeWhile (fun c => c != '/')
    if netloc.contains ':' then
      digitsToNat ((netloc.reverse.takeWhile (fun c => c != ':')).reverse)
    else none

/-- The URI schemes whose transports nng's `listen` can bind in a standard
pynng build: `inproc` is always compiled in, alongside the ipc, tcp and
websocket transports. A scheme outside this set makes `listen` raise
`NotSupported` (the repository's `test_invalid_address_scheme` observes this
for `invalid://`). -/
def nngSupportedSchemes : List String :=
  ["inproc", "ipc", "tcp", "tcp4", "tcp6", "ws", "wss", "tls+tcp"]

/-- `NngPairSocketFactory.create(addr, logger)`: an `ipc` path is unlinked
first (a non-ENOENT unlink failure raises); a `tcp` port is probed (missing
port raises `ValueError`, an in-use port raises `OSError`); any other scheme
reaches `sock.listen(addr)` with no pre-check of its own, so the outcome is
the listen attempt's: a scheme nng supports (such as the always-available
`inproc`) binds and `create` returns the socket, while an unsupported scheme
raises pynng's not-supported error — the factory closes the socket before any
listen error surfaces. -/
def factoryCreate (addr : String) (env : NetEnv) : Except FactoryError Unit :=
  let scheme := uriScheme addr
  if scheme == "ipc" then
    if env.ipcUnlinkFails then .error .osUnlinkFailed
    else if env.listenFails then .error .nngBindFailed
    else .ok ()
  else if scheme == "tcp" then
    match tcpPortOf addr with
    | none => .error .valueErrorMissingPort
    | some 0 => .error .valueErrorMissingPort
    | some _ =>
      if env.tcpPortInUse then .error .osAddressInUse
      else if env.listenFails then .error .nngBindFailed
      else .ok ()
  else if nngSupportedSchemes.contains scheme then
    if env.listenFails then .error .nngBindFailed
    else .ok ()
  else
    .error .nngNotSupported

/-! ### Claim-side auxiliary definitions -/

/-- The minimal-form serialization rule as the spec words it: a value that
exposes a way to re-emit only user-supplied fields uses it; otherwise the
full dump is written. To be compared with `ConfigManager.save`. -/
def minimalFormChoice : ConfigValue → Yaml
  | .schemaInstance dump toDict => toDict.getD dump
  | .svcConfig m => scModelDump m
  | .raw y => y

/-- The invariant the original claim C1 states: every installed value
validated against the supplied root schema at its last mutation. -/
def rootSchemaValidInvariant (st : ConfigManagerState) : Prop :=
  ∀ v, st.configs = some v →
    ∀ sch, st.schema = some sch → CoreSchema.validates sch v.dump = true

/-- What the code actually guarantees for an installed value: a raw tree is
installed only when no schema was supplied; a schema-default instance records
the supplied schema's defaults; a `ServiceConfig` value arises only from a
successful `ServiceConfig.model_validate` run with a schema present. -/
def installedConsistent (st : ConfigManagerState) : Prop :=
  match st.configs with
  | none => True
  | some (.raw _) => st.schema = none
  | some (.schemaInstance d t) =>
    ∃ sch, st.schema = some sch ∧ d = sch.defaultDump ∧ t = sch.toDictDump
  | some (.svcConfig m) =>
    st.schema ≠ none ∧ ∃ y, serviceConfigValidate y = .ok m

/-! ## Theorems -/

set_option maxRecDepth 40000

/-- Sanity check: the SHA-1 model reproduces the FIPS 180 test vector. -/
theorem sha1_testVector :
    bytesToHex (sha1 (asciiBytes "abc")) = "a9993e364706816aba3e25717850c26c9cd0d89d" := by
  decide

/-- Sanity check: the UUIDv5 model reproduces CPython's
`uuid5(NAMESPACE_URL, "detectmate/core/x").hex`. -/
theorem uuid5_testVector :
    uuid5hex "detectmate/core/x" = "0619b07e96885f34b6830ada35ef99d8" := by
  decide

/-- C2: evaluating the in-tree Engine at the failing sequence start, stop,
start: the first start succeeds, but the restart raises the `RuntimeError` of
`Thread.start` (the worker `Thread` is created only in `__init__` and Python
threads cannot be started twice), after `_running` was already flipped to
true with no live worker behind it. -/
theorem coreEngineRestartRaises :
    (coreEngineStart coreEngineInit).2 = .ok "engine started" ∧
    (coreEngineStart (coreEngineStop (coreEngineStart coreEngineInit).1).1).2
      = .error "threads can only be started once" ∧
    (coreEngineStart (coreEngineStop (coreEngineStart coreEngineInit).1).1).1.running = true ∧
    (coreEngineStart (coreEngineStop (coreEngineStart coreEngineInit).1).1).1.thread.alive
      = false := by
  exact ⟨rfl, rfl, rfl, rfl⟩

/-- C3: a received empty payload is dropped by the engine loop: the iteration
produces no processor invocation and no send on any output, and leaves the
engine state unchanged, whatever the processor and the transport would do. -/
theorem engineLoopDropsEmptyPayload (e : SpecEngine)
    (proc : List Nat → Except String (Option (List Nat))) (sendOk : Nat → Bool) :
    engineLoopStep e (.msg []) proc sendOk = (e, []) := by
  rcases e with ⟨running, paused, outputs⟩
  cases running <;> cases paused <;> simp [engineLoopStep]

/-- C7 (as amended): `Service.start` leaves state and counter unchanged when
the engine is already running; from a non-running state it increments
`engine_starts_total` by exactly one — also when the inner `Engine.start`
call then fails — and the counter never decreases. -/
theorem engineStartsTotalRule (st : SvcState) (eng : EngStartOutcome) :
    (st.running = true → serviceStart st eng = (st, .ok "Ignored: Engine is already running")) ∧
    (st.running = false → (serviceStart st eng).1.startsTotal = st.startsTotal + 1) ∧
    st.startsTotal ≤ (serviceStart st eng).1.startsTotal := by
  rcases st with ⟨running, total⟩
  cases running <;> cases eng <;> simp [serviceStart]

/-- C7 witness: concrete runs of both hypotheses of `engineStartsTotalRule`. -/
theorem engineStartsTotalRule_w :
    serviceStart ⟨true, 3⟩ .ok = (⟨true, 3⟩, .ok "Ignored: Engine is already running") ∧
    (serviceStart ⟨false, 5⟩ .ok).1.startsTotal = 6 :=
  ⟨(engineStartsTotalRule ⟨true, 3⟩ .ok).1 rfl, (engineStartsTotalRule ⟨false, 5⟩ .ok).2.1 rfl⟩

/-- C7 counterexample: with the engine not running and the inner engine start
failing, `Service.start` propagates the failure but has already incremented
`engine_starts_total` (5 becomes 6), so a failed start attempt does change
the counter. -/
theorem engineStartsTotal_cex :
    (serviceStart ⟨false, 5⟩ .failed).2 = .error "engine start failed" ∧
    (serviceStart ⟨false, 5⟩ .failed).1.startsTotal = 6 :=
  ⟨rfl, rfl⟩

/-- C8: for a non-empty payload, `Service.process` emits exactly one counter
increment of the payload's length followed by the processor invocation (the
increment precedes the call, and equals the length); for the empty payload
the counter is not touched. The passthrough (no library component) touches
the counter under the same rule and never invokes a processor. -/
theorem dataProcessedBytesRule (p : List Nat → Option (List Nat)) (raw : List Nat) :
    (raw ≠ [] →
      (serviceProcess (some p) raw).events = [.counterInc raw.length, .processorCall raw] ∧
      counterDelta (serviceProcess (some p) raw).events = raw.length ∧
      (serviceProcess none raw).events = [.counterInc raw.length]) ∧
    (raw = [] →
      (serviceProcess (some p) raw).events = [.processorCall raw] ∧
      counterDelta (serviceProcess (some p) raw).events = 0 ∧
      (serviceProcess none raw).events = []) := by
  cases raw <;> simp [serviceProcess, counterDelta]

/-- C8 witness: `dataProcessedBytesRule` at the two-byte payload `[104, 105]`
with an echoing component. -/
theorem dataProcessedBytesRule_w :
    (serviceProcess (some fun x => some x) [104, 105]).events
      = [.counterInc 2, .processorCall [104, 105]] ∧
    counterDelta (serviceProcess (some fun x => some x) [104, 105]).events = 2 := by
  have h := (dataProcessedBytesRule (fun x => some x) [104, 105]).1 (by decide)
  exact ⟨h.1, h.2.1⟩

/-- C4: after `Engine.stop` returns, the input socket and every output socket
are closed and any send on them raises a transport error; the close events
put every output-socket close before the input-socket close. -/
theorem engineStopClosesSockets (e : SpecEngineIO) (data : List Nat) :
    (specEngineStop e).1.running = false ∧
    (specEngineStop e).1.inputSock.closed = true ∧
    (∀ s ∈ (specEngineStop e).1.outSocks, s.closed = true) ∧
    (specEngineStop e).1.inputSock.send data = .error "transport error: socket closed" ∧
    (∀ s ∈ (specEngineStop e).1.outSocks, s.send data = .error "transport error: socket closed") ∧
    (specEngineStop e).2.getLast? = some .closedInput ∧
    (∀ ev ∈ (specEngineStop e).2.dropLast, ∃ i, ev = .closedOutput i) := by
  refine ⟨rfl, rfl, ?_, rfl, ?_, ?_, ?_⟩
  · intro s hs
    simp only [specEngineStop, List.mem_map] at hs
    obtain ⟨_, _, hs⟩ := hs
    exact hs ▸ rfl
  · intro s hs
    simp only [specEngineStop, List.mem_map] at hs
    obtain ⟨_, _, hs⟩ := hs
    exact hs ▸ rfl
  · simp [specEngineStop]
  · intro ev hev
    simp only [specEngineStop, List.dropLast_concat, List.mem_map] at hev
    obtain ⟨i, _, hi⟩ := hev
    exact ⟨i, hi.symm⟩

/-- C4 witness: `engineStopClosesSockets` at a running engine with one open
output socket; both the input socket and the output socket refuse a send. -/
theorem engineStopClosesSockets_w :
    (specEngineStop ⟨true, ⟨false⟩, [⟨false⟩]⟩).1.inputSock.send [7]
      = .error "transport error: socket closed" ∧
    SpecSocket.send ⟨true⟩ [7] = .error "transport error: socket closed" := by
  have h := engineStopClosesSockets ⟨true, ⟨false⟩, [⟨false⟩]⟩ [7]
  exact ⟨h.2.2.2.1, h.2.2.2.2.1 ⟨true⟩ (by simp [specEngineStop])⟩

/-- C5 (as amended): the component id kept by settings validation is exactly
the amended derivation rule — a user-supplied id is kept; else with a
component name the id is `uuid5(URL, "detectmate/<type>/<name>")`; else it is
`uuid5(URL, "detectmate/<type>|<manager_addr>|<engine_addr>")` with the empty
string for an unset address. The rule is a pure function of these fields, so
it is deterministic. -/
theorem componentIdRule (s : ServiceSettingsRec) :
    (ensureComponentId s).component_id = amendedIdRule s := by
  unfold ensureComponentId amendedIdRule
  by_cases h1 : optStrTruthy s.component_id = true
  · simp [h1]
  · by_cases h2 : optStrTruthy s.component_name = true <;>
      simp [h1, h2, String.append_assoc]

/-- C5 counterexample: for default-style settings with no name and no
explicit id, the code derives the id from `manager_addr` and `engine_addr`,
which differs from the claimed derivation from `engine_addr` and the joined
output addresses (here the empty join — the in-tree settings model has no
output-address field at all). -/
theorem componentIdClaim_cex :
    (ensureComponentId
        ⟨none, none, "core", some "ipc:///tmp/detectmate.cmd.ipc",
          some "ipc:///tmp/detectmate.engine.ipc"⟩).component_id ≠
      claimIdRule
        ⟨none, none, "core", some "ipc:///tmp/detectmate.cmd.ipc",
          some "ipc:///tmp/detectmate.engine.ipc"⟩ "" := by
  decide

/-- C6 (as amended): `create` on a URI whose scheme is neither `ipc` nor
`tcp` performs no scheme pre-check of its own, so the outcome is the listen
attempt's. When the scheme is outside nng's transport set, listen raises the
not-supported error and `create` fails under every transport condition; but
when nng supports the scheme — such as the always-available `inproc` — the
bind succeeds and `create` returns a bound socket, with none of the ipc/tcp
preconditions applied. Settings validation never rejects any address: it
always succeeds, for such schemes too. -/
theorem nonIpcTcpSchemeRule (addr : String) (env : NetEnv)
    (h1 : uriScheme addr ≠ "ipc") (h2 : uriScheme addr ≠ "tcp") :
    (nngSupportedSchemes.contains (uriScheme addr) = false →
      factoryCreate addr env = .error .nngNotSupported) ∧
    (nngSupportedSchemes.contains (uriScheme addr) = true → env.listenFails = false →
      factoryCreate addr env = .ok ()) ∧
    ∀ s : ServiceSettingsRec, (serviceSettingsValidate s).isOk = true := by
  have e1 : (uriScheme addr == "ipc") = false := by
    simp only [beq_eq_false_iff_ne, ne_eq]
    exact h1
  have e2 : (uriScheme addr == "tcp") = false := by
    simp only [beq_eq_false_iff_ne, ne_eq]
    exact h2
  refine ⟨?_, ?_, fun s => rfl⟩
  · intro hc
    have hm : uriScheme addr ∉ nngSupportedSchemes := by simpa using hc
    unfold factoryCreate
    simp [e1, e2, hm]
  · intro hc hl
    have hm : uriScheme addr ∈ nngSupportedSchemes := by simpa using hc
    unfold factoryCreate
    simp [e1, e2, hm, hl]

/-- C6 witness: `nonIpcTcpSchemeRule` under clean transport conditions at the
repository's own test address `invalid://bad.address` (listen refuses) and at
an `inproc` address (listen binds). -/
theorem nonIpcTcpSchemeRule_w :
    factoryCreate "invalid://bad.address" ⟨false, false, false⟩ = .error .nngNotSupported ∧
    factoryCreate "inproc://detectmate" ⟨false, false, false⟩ = .ok () :=
  ⟨(nonIpcTcpSchemeRule "invalid://bad.address" ⟨false, false, false⟩
      (by decide) (by decide)).1 (by decide),
   (nonIpcTcpSchemeRule "inproc://detectmate" ⟨false, false, false⟩
      (by decide) (by decide)).2.1 (by decide) rfl⟩

/-- C6 counterexample: `inproc` is neither `ipc` nor `tcp`, yet under clean
transport conditions `create("inproc://detectmate")` binds and returns a
socket — nng's inproc transport is always available, so `create` neither
fails with an unsupported-scheme error nor refrains from binding — and
settings validation also accepts an address with that scheme. -/
theorem schemeClaim_cex :
    uriScheme "inproc://detectmate" ≠ "ipc" ∧
    uriScheme "inproc://detectmate" ≠ "tcp" ∧
    factoryCreate "inproc://detectmate" ⟨false, false, false⟩ = .ok () ∧
    (serviceSettingsValidate ⟨none, none, "core", none, some "inproc://detectmate"⟩).isOk
      = true := by
  exact ⟨by decide, by decide, rfl, rfl⟩

/-- C9: whenever `save` writes, it writes with `default_flow_style=False` and
`sort_keys=False` after creating the parent directory; a supplied tree is
written as given, and with no argument the current value is serialized by the
minimal-form preference rule (`to_dict()` when the value exposes it, else the
full dump). -/
theorem saveMinimalFormRule (st : ConfigManagerState) (arg : Option Yaml) (act : SaveAction)
    (h : ConfigManager.save st arg = some act) :
    act.defaultFlowStyle = false ∧ act.sortKeys = false ∧ act.mkdirParents = true ∧
    (∀ d, arg = some d → act.data = d) ∧
    (arg = none → ∃ v, st.configs = some v ∧ act.data = minimalFormChoice v) := by
  rcases st with ⟨schema, configs⟩
  cases arg with
  | some d =>
    simp only [ConfigManager.save, Option.some.injEq] at h
    subst h
    refine ⟨rfl, rfl, rfl, ?_, ?_⟩
    · intro d' hd
      injection hd with hd
    · intro hn
      exact Option.noConfusion hn
  | none =>
    cases configs with
    | none => simp [ConfigManager.save] at h
    | some v =>
      cases v with
      | schemaInstance dump toDict =>
        simp only [ConfigManager.save, Option.some.injEq] at h
        subst h
        exact ⟨rfl, rfl, rfl, fun d hd => Option.noConfusion hd, fun _ => ⟨_, rfl, rfl⟩⟩
      | svcConfig m =>
        simp only [ConfigManager.save, Option.some.injEq] at h
        subst h
        exact ⟨rfl, rfl, rfl, fun d hd => Option.noConfusion hd, fun _ => ⟨_, rfl, rfl⟩⟩
      | raw y =>
        simp only [ConfigManager.save, Option.some.injEq] at h
        subst h
        exact ⟨rfl, rfl, rfl, fun d hd => Option.noConfusion hd, fun _ => ⟨_, rfl, rfl⟩⟩

/-- C9 witness: `saveMinimalFormRule` on a manager holding a schema instance
that exposes a minimal form: the minimal form is what gets written, with the
required flags. -/
theorem saveMinimalFormRule_w :
    (ConfigManager.save
        ⟨none, some (.schemaInstance (.dict [("a", .nat 1), ("b", .nat 2)])
          (some (.dict [("a", .nat 1)])))⟩ none).isSome = true ∧
    SaveAction.sortKeys ⟨.dict [("a", .nat 1)], true, false, false⟩ = false ∧
    (∃ v, (⟨none, some (.schemaInstance (.dict [("a", .nat 1), ("b", .nat 2)])
          (some (.dict [("a", .nat 1)])))⟩ : ConfigManagerState).configs = some v ∧
      SaveAction.data ⟨.dict [("a", .nat 1)], true, false, false⟩ = minimalFormChoice v) := by
  have h := saveMinimalFormRule
    ⟨none, some (.schemaInstance (.dict [("a", .nat 1), ("b", .nat 2)])
      (some (.dict [("a", .nat 1)])))⟩ none
    ⟨.dict [("a", .nat 1)], true, false, false⟩ rfl
  exact ⟨rfl, h.2.1, h.2.2.2.2 rfl⟩

/-- C10: with a schema supplied, `update` validates against the fixed
`ServiceConfig` model — its result is a function of `ServiceConfig.model_validate`
alone, whatever schema was supplied; a dict with neither `detectors` nor
`parsers` key passes and installs the value with both fields `None`,
discarding every supplied top-level key; and `load` of a truthy decoded tree
likewise validates only against `ServiceConfig`. -/
theorem updateFixedServiceConfig (sch : CoreSchema) (c : Option ConfigValue)
    (d : List (String × Yaml)) :
    (ConfigManager.update ⟨some sch, c⟩ d =
      match serviceConfigValidate (.dict d) with
      | .ok m => .ok ⟨some sch, some (.svcConfig m)⟩
      | .error e => .error e) ∧
    (yamlLookup d "detectors" = none → yamlLookup d "parsers" = none →
      ConfigManager.update ⟨some sch, c⟩ d = .ok ⟨some sch, some (.svcConfig ⟨none, none⟩)⟩) ∧
    (∀ y : Yaml, y.truthy = true →
      ConfigManager.load ⟨some sch, c⟩ (.content y) =
        match serviceConfigValidate y with
        | .ok m => .ok (⟨some sch, some (.svcConfig m)⟩, false)
        | .error e => .error e) := by
  refine ⟨?_, ?_, ?_⟩
  · unfold ConfigManager.update
    cases hv : serviceConfigValidate (.dict d) <;> simp
  · intro h1 h2
    unfold ConfigManager.update
    simp [serviceConfigValidate, validateOptField, h1, h2]
  · intro y hy
    unfold ConfigManager.load
    cases hv : serviceConfigValidate y <;> simp [hy, hv]

/-- C10 witness: `updateFixedServiceConfig` under a schema that would reject
the input: the update nevertheless succeeds, installing the value with both
fields `None` and discarding the unknown key `foo`. -/
theorem updateFixedServiceConfig_w :
    ConfigManager.update
        ⟨some ⟨["threshold"], ["threshold"], true, .dict [("threshold", .nat 5)], none⟩, none⟩
        [("foo", .nat 1)]
      = .ok ⟨some ⟨["threshold"], ["threshold"], true, .dict [("threshold", .nat 5)], none⟩,
          some (.svcConfig ⟨none, none⟩)⟩ := by
  exact (updateFixedServiceConfig
    ⟨["threshold"], ["threshold"], true, .dict [("threshold", .nat 5)], none⟩
    none [("foo", .nat 1)]).2.1 rfl rfl

/-- Preservation lemma for the config-store invariant: one operation keeps
every installed value accounted for by a successful validation. -/
theorem applyConfigOp_preserves (st : ConfigManagerState) (op : ConfigOp)
    (h : installedConsistent st) : installedConsistent (applyConfigOp st op) := by
  rcases st with ⟨schema, configs⟩
  cases op with
  | save arg => exact h
  | update d =>
    cases schema with
    | none => simp [applyConfigOp, ConfigManager.update, installedConsistent]
    | some sch =>
      cases hv : serviceConfigValidate (.dict d) with
      | ok m =>
        simp only [applyConfigOp, ConfigManager.update, hv, installedConsistent]
        exact ⟨by simp, ⟨.dict d, hv⟩⟩
      | error e =>
        simpa [applyConfigOp, ConfigManager.update, hv] using h
  | load f =>
    cases f with
    | absent =>
      cases schema with
      | some sch =>
        simp only [applyConfigOp, ConfigManager.load, installedConsistent]
        exact ⟨sch, rfl, rfl, rfl⟩
      | none => simpa [applyConfigOp, ConfigManager.load] using h
    | badYaml => simpa [applyConfigOp, ConfigManager.load] using h
    | content y =>
      by_cases ht : y.truthy = true
      · cases schema with
        | some sch =>
          cases hv : serviceConfigValidate y with
          | ok m =>
            simp only [applyConfigOp, ConfigManager.load, ht, hv, Option.isSome_some,
              Bool.true_and, installedConsistent]
            exact ⟨by simp, ⟨y, hv⟩⟩
          | error e =>
            simpa [applyConfigOp, ConfigManager.load, ht, hv] using h
        | none =>
          simp [applyConfigOp, ConfigManager.load, ht, installedConsistent]
      · have ht' : y.truthy = false := by simpa using ht
        simpa [applyConfigOp, ConfigManager.load, ht'] using h

/-- C1 (as amended): for every schema and every operation sequence on a
freshly constructed `ConfigManager`, the current value is `None` or was
installed by a successful validation: with a schema present it is either the
schema's own default instance (absent backing file) or the result of a
successful `ServiceConfig.model_validate` call; a raw tree is installed only
when no schema was supplied. No operation installs a value that failed its
validation. -/
theorem configInstalledConsistent (schema : Option CoreSchema) (ops : List ConfigOp) :
    installedConsistent (runConfigOps schema ops) := by
  have gen : ∀ (l : List ConfigOp) (st : ConfigManagerState),
      installedConsistent st → installedConsistent (l.foldl applyConfigOp st) := by
    intro l
    induction l with
    | nil => exact fun st h => h
    | cons op rest ih => exact fun st h => ih _ (applyConfigOp_preserves st op h)
  exact gen ops ⟨schema, none⟩ trivial

/-- C1 counterexample: with a supplied root schema requiring a `threshold`
field, the admin sequence consisting of one `update` succeeds and installs a
value, yet that value does not validate against the supplied root schema —
`get()` returns a value that never validated against the schema supplied for
the hosted processor. -/
theorem configRootSchemaClaim_cex :
    ¬ rootSchemaValidInvariant
        (runConfigOps (some ⟨["threshold"], ["threshold"], true, .dict [("threshold", .nat 5)], none⟩)
          [.update [("detectors", .dict [("d1", .dict [])])]]) := by
  intro h
  have hv := h (.svcConfig ⟨some [("d1", [])], none⟩) rfl
    ⟨["threshold"], ["threshold"], true, .dict [("threshold", .nat 5)], none⟩ rfl
  exact absurd hv (by decide)
